import Mathlib

/-!
Shallow embedding of `src/cvode/cvode_nls.c` (CVODE nonlinear solver
interface).  `realtype` is modelled as `ℚ` (exact arithmetic), `N_Vector`
as `List ℚ`, and the integrator memory `CVodeMem` as a structure holding
the fields this file reads or writes.  Return codes from the SUNDIALS
headers (not part of this file) are modelled as an enumeration; return
values of delegated user routines stay `ℤ` so their sign can be inspected
exactly as the C code does.
-/

namespace CvodeNls

/-- Return codes used by the functions of `cvode_nls.c`.  The concrete
integer values live in headers outside this file; only their distinctness
and the success/continue/recoverable/fatal classification matter here. -/
inductive NlsRet where
  | CV_SUCCESS
  | SUN_NLS_CONTINUE
  | SUN_NLS_CONV_RECVR
  | CV_MEM_NULL
  | CV_ILL_INPUT
  | CV_LSETUP_FAIL
  | CV_LSOLVE_FAIL
  | CV_RHSFUNC_FAIL
  | RHSFUNC_RECVR
  deriving DecidableEq, Repr

/-- The `convfail` reason codes (`CV_NO_FAILURES`, `CV_FAIL_BAD_J`,
`CV_FAIL_OTHER` from `cvode_impl.h`, outside this file). -/
inductive ConvFailFlag where
  | noFailures
  | failBadJ
  | failOther
  deriving DecidableEq, Repr

/-- Model of `N_VLinearSum(a, x, b, y, z)`: elementwise `z = a*x + b*y`. -/
def N_VLinearSum (a : ℚ) (x : List ℚ) (b : ℚ) (y : List ℚ) : List ℚ :=
  List.zipWith (fun xi yi => a * xi + b * yi) x y

/-- Model of `N_VScale(c, x, z)`: elementwise `z = c*x`. -/
def N_VScale (c : ℚ) (x : List ℚ) : List ℚ :=
  x.map (fun xi => c * xi)

/-- The fields of the CVODE integrator memory (`CVodeMem`) that
`cvode_nls.c` reads or writes.  `cv_zn0`/`cv_zn1` are `cv_zn[0]` and
`cv_zn[1]`; `cv_f` is the user right-hand-side function together with
`cv_user_data`, returning its C status code and the vector it writes. -/
structure CVodeMem where
  cv_zn0 : List ℚ
  cv_zn1 : List ℚ
  cv_y : List ℚ
  cv_ftemp : List ℚ
  cv_ewt : List ℚ
  cv_tn : ℚ
  cv_rl1 : ℚ
  cv_gamma : ℚ
  cv_h : ℚ
  cv_crate : ℚ
  cv_gamrat : ℚ
  cv_gammap : ℚ
  cv_acnrm : ℚ
  cv_nfe : ℕ
  cv_nsetups : ℕ
  cv_nst : ℕ
  cv_nstlp : ℕ
  cv_jcur : Bool
  convfail : ConvFailFlag
  cv_f : ℚ → List ℚ → ℤ × List ℚ

/-- Constant `NLS_MAXCOR`: maximum number of corrector iterations. -/
def NLS_MAXCOR : ℕ := 3

/-- Constant `CRDOWN = RCONST(0.3)`: decay constant for the convergence rate. -/
def CRDOWN : ℚ := 3 / 10

/-- Constant `RDIV = RCONST(2.0)`: divergence threshold for `del/delp`. -/
def RDIV : ℚ := 2

/-- Model of `cvNlsResidual` (lines 267-292).  Input `ycor` is the trial
correction, `res` the caller's residual buffer (returned untouched when
the right-hand side fails).  Returns the status code, the updated
memory, and the residual buffer's contents. -/
def cvNlsResidual (ycor res : List ℚ) (cv : CVodeMem) :
    NlsRet × CVodeMem × List ℚ :=
  let y := N_VLinearSum 1 cv.cv_zn0 1 ycor
  let fr := cv.cv_f cv.cv_tn y
  let cv1 := { cv with cv_y := y, cv_ftemp := fr.2, cv_nfe := cv.cv_nfe + 1 }
  if fr.1 < 0 then (NlsRet.CV_RHSFUNC_FAIL, cv1, res)
  else if 0 < fr.1 then (NlsRet.RHSFUNC_RECVR, cv1, res)
  else
    let res1 := N_VLinearSum cv.cv_rl1 cv.cv_zn1 1 ycor
    let res2 := N_VLinearSum (-cv.cv_gamma) fr.2 1 res1
    (NlsRet.CV_SUCCESS, cv1, res2)

set_option linter.unusedVariables false in
/-- Model of `cvNlsFPFunction` (lines 295-320).  The right-hand side writes
directly into the `res` buffer, so on failure the buffer holds the raw
right-hand-side output. -/
def cvNlsFPFunction (ycor res : List ℚ) (cv : CVodeMem) :
    NlsRet × CVodeMem × List ℚ :=
  let y := N_VLinearSum 1 cv.cv_zn0 1 ycor
  let fr := cv.cv_f cv.cv_tn y
  let cv1 := { cv with cv_y := y, cv_nfe := cv.cv_nfe + 1 }
  if fr.1 < 0 then (NlsRet.CV_RHSFUNC_FAIL, cv1, fr.2)
  else if 0 < fr.1 then (NlsRet.RHSFUNC_RECVR, cv1, fr.2)
  else
    let res1 := N_VLinearSum cv.cv_h fr.2 (-1) cv.cv_zn1
    (NlsRet.CV_SUCCESS, cv1, N_VScale cv.cv_rl1 res1)

/-- Model of `cvNlsLSetup` (lines 166-199).  The integrator-supplied `cv_lsetup`
routine is passed as a parameter: it receives the (possibly updated)
`convfail` flag, `cv_y` and `cv_ftemp`, and returns its integer status
together with the `jcur` flag it writes.  The result's third component
is the `*jcur` output parameter. -/
def cvNlsLSetup (lsetup : ConvFailFlag → List ℚ → List ℚ → ℤ × Bool)
    (jbad : Bool) (cv : CVodeMem) : NlsRet × CVodeMem × Bool :=
  let cf := if jbad then ConvFailFlag.failBadJ else cv.convfail
  let sr := lsetup cf cv.cv_y cv.cv_ftemp
  let cv1 := { cv with
    convfail := cf
    cv_nsetups := cv.cv_nsetups + 1
    cv_jcur := sr.2
    cv_gamrat := 1
    cv_crate := 1
    cv_gammap := cv.cv_gamma
    cv_nstlp := cv.cv_nst }
  if sr.1 < 0 then (NlsRet.CV_LSETUP_FAIL, cv1, sr.2)
  else if 0 < sr.1 then (NlsRet.SUN_NLS_CONV_RECVR, cv1, sr.2)
  else (NlsRet.CV_SUCCESS, cv1, sr.2)

/-- Model of `cvNlsLSolve` (lines 202-219).  The integrator-supplied `cv_lsolve`
routine is passed as a parameter: it receives `delta`, `cv_ewt`, `cv_y`,
`cv_ftemp`, and returns its integer status and the updated `delta`. -/
def cvNlsLSolve (lsolve : List ℚ → List ℚ → List ℚ → List ℚ → ℤ × List ℚ)
    (delta : List ℚ) (cv : CVodeMem) : NlsRet × List ℚ :=
  let sr := lsolve delta cv.cv_ewt cv.cv_y cv.cv_ftemp
  if sr.1 < 0 then (NlsRet.CV_LSOLVE_FAIL, sr.2)
  else if 0 < sr.1 then (NlsRet.SUN_NLS_CONV_RECVR, sr.2)
  else (NlsRet.CV_SUCCESS, sr.2)

/-- Model of `cvNlsConvTest` (lines 222-264).  `m` is the iteration count obtained
from `SUNNonlinSolGetCurIter`; `del` is the precomputed weighted RMS norm
`N_VWrmsNorm(delta, ewt)` of the increment, and `ycorNrm` the precomputed
`N_VWrmsNorm(ycor, cv_mem->cv_ewt)` used for the diagnostic `cv_acnrm`
(the norms themselves involve a square root and are taken as scalar
inputs).  `delp`, the function's `static` local holding the previous
iteration's norm, is threaded explicitly: it is the third component of
the result (written only on the `SUN_NLS_CONTINUE` path, exactly as in
the source). -/
def cvNlsConvTest (m : ℕ) (del ycorNrm tol : ℚ) (delp : ℚ)
    (cv : CVodeMem) : NlsRet × CVodeMem × ℚ :=
  let crate1 := if 0 < m then max (CRDOWN * cv.cv_crate) (del / delp)
                else cv.cv_crate
  let dcon := del * min 1 crate1 / tol
  let cv1 := { cv with cv_crate := crate1 }
  if dcon ≤ 1 then
    (NlsRet.CV_SUCCESS,
      { cv1 with cv_acnrm := if m = 0 then del else ycorNrm }, delp)
  else if 1 ≤ m ∧ RDIV * delp < del then
    (NlsRet.SUN_NLS_CONV_RECVR, cv1, delp)
  else
    (NlsRet.SUN_NLS_CONTINUE, cv1, del)

/-- A baseline concrete memory used by the concrete-input theorems. -/
def mem0 : CVodeMem where
  cv_zn0 := []
  cv_zn1 := []
  cv_y := []
  cv_ftemp := []
  cv_ewt := []
  cv_tn := 0
  cv_rl1 := 1
  cv_gamma := 0
  cv_h := 0
  cv_crate := 1
  cv_gamrat := 1
  cv_gammap := 0
  cv_acnrm := 0
  cv_nfe := 0
  cv_nsetups := 0
  cv_nst := 0
  cv_nstlp := 0
  cv_jcur := false
  convfail := ConvFailFlag.noFailures
  cv_f := fun _ _ => (0, [])

/-- Solver algorithm families returned by `SUNNonlinSolGetType`. -/
inductive NlsFamily where
  | rootfind
  | fixedpoint
  | other
  deriving DecidableEq, Repr

/-- Presence of the operations `CVodeSetNonlinearSolver` requires of a
candidate solver (`NLS->ops->gettype` and friends being non-NULL). -/
structure NLSOps where
  hasGetType : Bool
  hasInit : Bool
  hasSolve : Bool
  hasFree : Bool
  hasSetSysFn : Bool
  deriving DecidableEq, Repr

/-- Which system function was installed by `SUNNonlinSolSetSysFn`. -/
inductive SysFn where
  | residualFn
  | fixedPointFn
  deriving DecidableEq, Repr

/-- A candidate `SUNNonlinearSolver`.  The `ret*` fields are the status
codes its `SetSysFn` / `SetConvTestFn` / `SetMaxIters` operations return
(`0` = `CV_SUCCESS`). -/
structure SUNNLS where
  ops : NLSOps
  family : NlsFamily
  retSetSysFn : ℤ
  retSetConvTestFn : ℤ
  retSetMaxIters : ℤ
  deriving DecidableEq, Repr

/-- The slice of integrator state `CVodeSetNonlinearSolver` touches: the
installed solver pointer `NLS`, plus observation fields recording which
solvers were freed (`SUNNonlinSolFree`), which system function was
installed, whether the convergence test was installed, and the
max-iterations setting. -/
structure RegState where
  NLS : Option SUNNLS
  freedSolvers : List SUNNLS
  sysfn : Option SysFn
  convTestFnSet : Bool
  maxIters : Option ℕ
  deriving DecidableEq, Repr

/-- The continuation of `CVodeSetNonlinearSolver` after the system
function has been installed (lines 94-116): check the `SetSysFn` status,
install the convergence test, and set the maximum iteration count. -/
def cvSetNlsTail (s : SUNNLS) (cv2 : RegState) : NlsRet × Option RegState :=
  if s.retSetSysFn ≠ 0 then (NlsRet.CV_ILL_INPUT, some cv2)
  else
    let cv3 := { cv2 with convTestFnSet := true }
    if s.retSetConvTestFn ≠ 0 then (NlsRet.CV_ILL_INPUT, some cv3)
    else
      let cv4 := { cv3 with maxIters := some NLS_MAXCOR }
      if s.retSetMaxIters ≠ 0 then (NlsRet.CV_ILL_INPUT, some cv4)
      else (NlsRet.CV_SUCCESS, some cv4)

/-- Model of `CVodeSetNonlinearSolver` (lines 47-117).  A `none` first argument is
a NULL `cvode_mem`; a `none` second argument is a NULL `NLS`. -/
def CVodeSetNonlinearSolver (cvode_mem : Option RegState)
    (nls : Option SUNNLS) : NlsRet × Option RegState :=
  match cvode_mem with
  | none => (NlsRet.CV_MEM_NULL, none)
  | some cv =>
    match nls with
    | none => (NlsRet.CV_ILL_INPUT, some cv)
    | some s =>
      if s.ops.hasGetType = false ∨ s.ops.hasInit = false ∨
         s.ops.hasSolve = false ∨ s.ops.hasFree = false ∨
         s.ops.hasSetSysFn = false then
        (NlsRet.CV_ILL_INPUT, some cv)
      else
        -- free any existing nonlinear solver, then store the new pointer
        let cv1 : RegState :=
          { cv with
            freedSolvers := cv.freedSolvers ++
              (match cv.NLS with | some old => [old] | none => [])
            NLS := some s }
        -- set the nonlinear system function by declared type
        if s.family = NlsFamily.rootfind then
          cvSetNlsTail s { cv1 with sysfn := some SysFn.residualFn }
        else if s.family = NlsFamily.fixedpoint then
          cvSetNlsTail s { cv1 with sysfn := some SysFn.fixedPointFn }
        else
          (NlsRet.CV_ILL_INPUT, some cv1)

/-!  Theorems  -/

/-- In every branch of `cvNlsConvTest`, the returned memory's `cv_crate`
is the value computed at the top of the function: updated to
`max (CRDOWN * crate, del/delp)` when `m > 0`, unchanged otherwise. -/
theorem convTest_crate_eq (m : ℕ) (del ycorNrm tol delp : ℚ)
    (cv : CVodeMem) :
    (cvNlsConvTest m del ycorNrm tol delp cv).2.1.cv_crate =
      (if 0 < m then max (CRDOWN * cv.cv_crate) (del / delp)
       else cv.cv_crate) := by
  simp only [cvNlsConvTest]
  split_ifs <;> rfl

/-- C1 (amended): for `m ≥ 1` with `del > RDIV * delp` (and `delp > 0`),
the convergence check still takes precedence: since the updated `crate`
is at least `del/delp > 2`, `dcon` reduces to `del/tol`, and the test
reports `CV_SUCCESS` when `del/tol ≤ 1` and `SUN_NLS_CONV_RECVR`
(divergence) only otherwise — not DIVERGED regardless of `dcon`. -/
theorem c1_diverged_only_if_not_converged (m : ℕ)
    (del ycorNrm tol delp : ℚ) (cv : CVodeMem)
    (hm : 1 ≤ m) (hdelp : 0 < delp) (hdiv : RDIV * delp < del) :
    (cvNlsConvTest m del ycorNrm tol delp cv).1 =
      (if del / tol ≤ 1 then NlsRet.CV_SUCCESS
       else NlsRet.SUN_NLS_CONV_RECVR) := by
  have hm' : 0 < m := hm
  have hratio : (2 : ℚ) < del / delp := by
    rw [lt_div_iff₀ hdelp]
    have h2 : RDIV = (2 : ℚ) := rfl
    rw [h2] at hdiv
    linarith
  have hcr : min 1 (max (CRDOWN * cv.cv_crate) (del / delp)) = 1 := by
    apply min_eq_left
    calc (1 : ℚ) ≤ 2 := by norm_num
      _ ≤ del / delp := le_of_lt hratio
      _ ≤ max (CRDOWN * cv.cv_crate) (del / delp) := le_max_right _ _
  simp only [cvNlsConvTest]
  rw [if_pos hm', if_neg (Nat.pos_iff_ne_zero.mp hm'), hcr, mul_one]
  split_ifs with h1 h2
  · rfl
  · rfl
  · exact absurd ⟨hm, hdiv⟩ h2

/-- C1 counterexample: at `m = 1`, `delp = 1/10`, `del = 3/10` the
increment grew by more than `RDIV = 2`, yet with `tol = 1` the test
reports `CV_SUCCESS`, not the recoverable-divergence code — the claim
"DIVERGED regardless of dcon and independent of the tolerance" fails. -/
theorem c1_counterexample :
    RDIV * (1 / 10 : ℚ) < 3 / 10 ∧
    (cvNlsConvTest 1 (3 / 10) 0 1 (1 / 10) mem0).1 = NlsRet.CV_SUCCESS := by
  constructor
  · norm_num [RDIV]
  · norm_num [cvNlsConvTest, mem0, CRDOWN, RDIV, min_def, max_def]

/-- Witness for C1: the amended theorem applied at `m = 1`,
`del = 3/10`, `delp = 1/10`, `tol = 1/100` yields divergence. -/
theorem c1_witness :
    (cvNlsConvTest 1 (3 / 10) 0 (1 / 100) (1 / 10) mem0).1 =
      NlsRet.SUN_NLS_CONV_RECVR := by
  have h := c1_diverged_only_if_not_converged 1 (3 / 10) 0 (1 / 100)
    (1 / 10) mem0 (le_refl 1) (by norm_num) (by norm_num [RDIV])
  rw [h]
  norm_num

/-- C2 (amended): `crate` is only updated by the convergence test when
`m > 0`, via `crate = max (CRDOWN * crate) (del/delp)`; the update never
falls below the decay floor `CRDOWN * crate`, but it is NOT bounded by 1
(the test guards with `min 1 crate` when forming `dcon` instead). -/
theorem c2_crate_update (m : ℕ) (del ycorNrm tol delp : ℚ)
    (cv : CVodeMem) :
    (m = 0 →
      (cvNlsConvTest m del ycorNrm tol delp cv).2.1.cv_crate =
        cv.cv_crate) ∧
    (0 < m →
      (cvNlsConvTest m del ycorNrm tol delp cv).2.1.cv_crate =
        max (CRDOWN * cv.cv_crate) (del / delp) ∧
      CRDOWN * cv.cv_crate ≤
        (cvNlsConvTest m del ycorNrm tol delp cv).2.1.cv_crate) := by
  rw [convTest_crate_eq]
  constructor
  · intro hm
    simp [hm]
  · intro hm
    rw [if_pos hm]
    exact ⟨rfl, le_max_left _ _⟩

/-- C2 counterexample: starting from `crate = 1`, one update with
`del = 3/20`, `delp = 1/10` (ratio `3/2`, below the divergence
threshold) leaves `crate = 3/2 > 1`, refuting "crate never exceeds 1". -/
theorem c2_counterexample :
    1 < (cvNlsConvTest 1 (3 / 20) 0 (1 / 100) (1 / 10) mem0).2.1.cv_crate := by
  norm_num [cvNlsConvTest, mem0, CRDOWN, RDIV, min_def, max_def]

/-- Witness for C2: the update formula evaluated at `m = 1`. -/
theorem c2_witness :
    (cvNlsConvTest 1 (3 / 20) 0 (1 / 100) (1 / 10) mem0).2.1.cv_crate =
      max (CRDOWN * mem0.cv_crate) ((3 / 20) / (1 / 10)) :=
  ((c2_crate_update 1 (3 / 20) 0 (1 / 100) (1 / 10) mem0).2
    (by norm_num)).1

/-- C3 (amended): at `m = 0` the decision (returned code and updated
memory) never reads `delp` — it is identical for any two `delp` values —
and `dcon = del * min 1 crate / tol`, which reduces to `del/tol`
whenever `crate ≥ 1` (e.g. right after a linear-setup reset), but not
for a leftover `crate < 1`. -/
theorem c3_m0_ignores_delp (del ycorNrm tol delp1 delp2 : ℚ)
    (cv : CVodeMem) :
    ((cvNlsConvTest 0 del ycorNrm tol delp1 cv).1 =
       (cvNlsConvTest 0 del ycorNrm tol delp2 cv).1 ∧
     (cvNlsConvTest 0 del ycorNrm tol delp1 cv).2.1 =
       (cvNlsConvTest 0 del ycorNrm tol delp2 cv).2.1) ∧
    (1 ≤ cv.cv_crate →
      (cvNlsConvTest 0 del ycorNrm tol delp1 cv).1 =
        (if del / tol ≤ 1 then NlsRet.CV_SUCCESS
         else NlsRet.SUN_NLS_CONTINUE)) := by
  constructor
  · simp only [cvNlsConvTest]
    norm_num
    split_ifs <;> simp
  · intro hcrate
    simp only [cvNlsConvTest]
    norm_num
    rw [min_eq_left hcrate, mul_one]
    split_ifs <;> rfl

/-- C3 counterexample: at `m = 0` with a leftover `crate = 1/2`,
`del = 3/2`, `tol = 1`, the test reports `CV_SUCCESS` although
`del/tol = 3/2 > 1` — the decision does not reduce to `del/tol`. -/
theorem c3_counterexample :
    (cvNlsConvTest 0 (3 / 2) 0 1 0 { mem0 with cv_crate := 1 / 2 }).1 =
      NlsRet.CV_SUCCESS ∧
    ¬ ((3 / 2 : ℚ) / 1 ≤ 1) := by
  constructor
  · norm_num [cvNlsConvTest, mem0, CRDOWN, RDIV, min_def, max_def]
  · norm_num

/-- Witness for C3: the amended theorem applied at concrete inputs
(`crate = 1` in `mem0`). -/
theorem c3_witness :
    (cvNlsConvTest 0 (3 / 2) 0 1 (7 / 10) mem0).1 =
      (if (3 / 2 : ℚ) / 1 ≤ 1 then NlsRet.CV_SUCCESS
       else NlsRet.SUN_NLS_CONTINUE) :=
  (c3_m0_ignores_delp (3 / 2) 0 1 (7 / 10) (9 / 10) mem0).2
    (by norm_num [mem0])

/-- The spec's residual formula, written as in the spec:
`residual = rl1 * historyVectors[1] + ycor - gamma * rhsOutput`. -/
def residualSpec (rl1 gamma : ℚ) (zn1 ycor fout : List ℚ) : List ℚ :=
  List.zipWith (fun ry f => ry - gamma * f)
    (List.zipWith (fun z y => rl1 * z + y) zn1 ycor) fout

/-- The spec's fixed-point formula, written as in the spec:
`output = rl1 * (stepSize * rhsOutput - historyVectors[1])`. -/
def fpSpec (rl1 h : ℚ) (zn1 fout : List ℚ) : List ℚ :=
  List.zipWith (fun f z => rl1 * (h * f - z)) fout zn1

/-- C4: when the right-hand side returns status `0` with output `fout`,
`cvNlsResidual` reports success, sets `cv_y = zn[0] + ycor`, and returns
the residual `rl1 * zn[1] + ycor - gamma * fout`. -/
theorem c4_residual_formula (ycor res fout : List ℚ) (cv : CVodeMem)
    (hf : cv.cv_f cv.cv_tn (N_VLinearSum 1 cv.cv_zn0 1 ycor) = (0, fout)) :
    (cvNlsResidual ycor res cv).1 = NlsRet.CV_SUCCESS ∧
    (cvNlsResidual ycor res cv).2.1.cv_y =
      List.zipWith (fun a b => a + b) cv.cv_zn0 ycor ∧
    (cvNlsResidual ycor res cv).2.2 =
      residualSpec cv.cv_rl1 cv.cv_gamma cv.cv_zn1 ycor fout := by
  simp only [cvNlsResidual, hf]
  norm_num
  refine ⟨?_, ?_⟩
  · unfold N_VLinearSum
    congr 1
    funext a b
    ring
  · unfold N_VLinearSum residualSpec
    rw [List.zipWith_comm]
    congr 1
    · funext f r
      ring
    · congr 1
      funext z y
      ring

/-- Witness for C4: the spec's end-to-end scenario, `zn[0] = [1]`,
`zn[1] = [1/2]`, `rl1 = 1`, `gamma = 1/10`, `ycor = [0]`, RHS output
`[2]`, yielding `cv_y = [1]` and residual `[3/10]`. -/
theorem c4_witness :
    (cvNlsResidual [0] [0] { mem0 with
        cv_zn0 := [1], cv_zn1 := [1 / 2], cv_rl1 := 1, cv_gamma := 1 / 10,
        cv_f := fun _ _ => (0, [2]) }).1 = NlsRet.CV_SUCCESS ∧
    (cvNlsResidual [0] [0] { mem0 with
        cv_zn0 := [1], cv_zn1 := [1 / 2], cv_rl1 := 1, cv_gamma := 1 / 10,
        cv_f := fun _ _ => (0, [2]) }).2.1.cv_y = [1] ∧
    (cvNlsResidual [0] [0] { mem0 with
        cv_zn0 := [1], cv_zn1 := [1 / 2], cv_rl1 := 1, cv_gamma := 1 / 10,
        cv_f := fun _ _ => (0, [2]) }).2.2 = [3 / 10] := by
  have h := c4_residual_formula [0] [0] [2] { mem0 with
    cv_zn0 := [1], cv_zn1 := [1 / 2], cv_rl1 := 1, cv_gamma := 1 / 10,
    cv_f := fun _ _ => (0, [2]) } rfl
  refine ⟨h.1, h.2.1.trans ?_, h.2.2.trans ?_⟩
  · norm_num
  · norm_num [residualSpec]

/-- C5: when the right-hand side returns status `0` with output `fout`,
`cvNlsFPFunction` reports success, sets `cv_y = zn[0] + ycor`, and
returns `rl1 * (h * fout - zn[1])`. -/
theorem c5_fixedpoint_formula (ycor res fout : List ℚ) (cv : CVodeMem)
    (hf : cv.cv_f cv.cv_tn (N_VLinearSum 1 cv.cv_zn0 1 ycor) = (0, fout)) :
    (cvNlsFPFunction ycor res cv).1 = NlsRet.CV_SUCCESS ∧
    (cvNlsFPFunction ycor res cv).2.1.cv_y =
      List.zipWith (fun a b => a + b) cv.cv_zn0 ycor ∧
    (cvNlsFPFunction ycor res cv).2.2 =
      fpSpec cv.cv_rl1 cv.cv_h cv.cv_zn1 fout := by
  simp only [cvNlsFPFunction, hf]
  norm_num
  refine ⟨?_, ?_⟩
  · unfold N_VLinearSum
    congr 1
    funext a b
    ring
  · unfold N_VLinearSum N_VScale fpSpec
    rw [List.map_zipWith]
    congr 1
    funext f z
    ring

/-- Witness for C5: `zn[0] = [1]`, `zn[1] = [1/2]`, `rl1 = 1`,
`h = 1/2`, `ycor = [0]`, RHS output `[2]`, yielding `cv_y = [1]` and
output `[1 * (1/2 * 2 - 1/2)] = [1/2]`. -/
theorem c5_witness :
    (cvNlsFPFunction [0] [0] { mem0 with
        cv_zn0 := [1], cv_zn1 := [1 / 2], cv_rl1 := 1, cv_h := 1 / 2,
        cv_f := fun _ _ => (0, [2]) }).1 = NlsRet.CV_SUCCESS ∧
    (cvNlsFPFunction [0] [0] { mem0 with
        cv_zn0 := [1], cv_zn1 := [1 / 2], cv_rl1 := 1, cv_h := 1 / 2,
        cv_f := fun _ _ => (0, [2]) }).2.1.cv_y = [1] ∧
    (cvNlsFPFunction [0] [0] { mem0 with
        cv_zn0 := [1], cv_zn1 := [1 / 2], cv_rl1 := 1, cv_h := 1 / 2,
        cv_f := fun _ _ => (0, [2]) }).2.2 = [1 / 2] := by
  have h := c5_fixedpoint_formula [0] [0] [2] { mem0 with
    cv_zn0 := [1], cv_zn1 := [1 / 2], cv_rl1 := 1, cv_h := 1 / 2,
    cv_f := fun _ _ => (0, [2]) } rfl
  refine ⟨h.1, h.2.1.trans ?_, h.2.2.trans ?_⟩
  · norm_num
  · norm_num [fpSpec]

/-- C6: both system functions increment the right-hand-side evaluation
counter `cv_nfe` by exactly one, on every call, whatever status the
right-hand side reports (fatal, recoverable, or success). -/
theorem c6_nfe_increment (ycor res : List ℚ) (cv : CVodeMem) :
    (cvNlsResidual ycor res cv).2.1.cv_nfe = cv.cv_nfe + 1 ∧
    (cvNlsFPFunction ycor res cv).2.1.cv_nfe = cv.cv_nfe + 1 := by
  constructor
  · simp only [cvNlsResidual]
    split_ifs <;> rfl
  · simp only [cvNlsFPFunction]
    split_ifs <;> rfl

/-- C9: both system functions overwrite `cv_y` with `zn[0] + ycor`
before the right-hand side is consulted, so the returned memory holds
the updated `cv_y` in every branch — in particular also when the
right-hand side reports a recoverable or fatal failure: the failure
return is not atomic with respect to the integrator state. -/
theorem c9_y_overwritten_before_rhs (ycor res : List ℚ) (cv : CVodeMem) :
    (cvNlsResidual ycor res cv).2.1.cv_y = N_VLinearSum 1 cv.cv_zn0 1 ycor ∧
    (cvNlsFPFunction ycor res cv).2.1.cv_y =
      N_VLinearSum 1 cv.cv_zn0 1 ycor := by
  constructor
  · simp only [cvNlsResidual]
    split_ifs <;> rfl
  · simp only [cvNlsFPFunction]
    split_ifs <;> rfl

/-- C7: both adapters map the delegated routine's integer status the
same way: negative to the fatal setup/solve failure code, positive to
the recoverable code `SUN_NLS_CONV_RECVR`, and zero to `CV_SUCCESS`. -/
theorem c7_adapter_code_mapping
    (lsetup : ConvFailFlag → List ℚ → List ℚ → ℤ × Bool)
    (lsolve : List ℚ → List ℚ → List ℚ → List ℚ → ℤ × List ℚ)
    (jbad : Bool) (delta : List ℚ) (cv : CVodeMem) :
    (((lsetup (if jbad then ConvFailFlag.failBadJ else cv.convfail)
          cv.cv_y cv.cv_ftemp).1 < 0 →
        (cvNlsLSetup lsetup jbad cv).1 = NlsRet.CV_LSETUP_FAIL) ∧
     (0 < (lsetup (if jbad then ConvFailFlag.failBadJ else cv.convfail)
          cv.cv_y cv.cv_ftemp).1 →
        (cvNlsLSetup lsetup jbad cv).1 = NlsRet.SUN_NLS_CONV_RECVR) ∧
     ((lsetup (if jbad then ConvFailFlag.failBadJ else cv.convfail)
          cv.cv_y cv.cv_ftemp).1 = 0 →
        (cvNlsLSetup lsetup jbad cv).1 = NlsRet.CV_SUCCESS)) ∧
    (((lsolve delta cv.cv_ewt cv.cv_y cv.cv_ftemp).1 < 0 →
        (cvNlsLSolve lsolve delta cv).1 = NlsRet.CV_LSOLVE_FAIL) ∧
     (0 < (lsolve delta cv.cv_ewt cv.cv_y cv.cv_ftemp).1 →
        (cvNlsLSolve lsolve delta cv).1 = NlsRet.SUN_NLS_CONV_RECVR) ∧
     ((lsolve delta cv.cv_ewt cv.cv_y cv.cv_ftemp).1 = 0 →
        (cvNlsLSolve lsolve delta cv).1 = NlsRet.CV_SUCCESS)) := by
  refine ⟨⟨?_, ?_, ?_⟩, ?_, ?_, ?_⟩ <;> intro hr <;>
    simp only [cvNlsLSetup, cvNlsLSolve] <;> split_ifs at hr ⊢ <;>
      first
        | rfl
        | omega

/-- Witness for C7: a setup routine returning `-1` maps to the fatal
setup-failure code, and a solve routine returning `1` maps to the
recoverable code. -/
theorem c7_witness :
    (cvNlsLSetup (fun _ _ _ => ((-1 : ℤ), true)) false mem0).1 =
      NlsRet.CV_LSETUP_FAIL ∧
    (cvNlsLSolve (fun d _ _ _ => ((1 : ℤ), d)) [] mem0).1 =
      NlsRet.SUN_NLS_CONV_RECVR := by
  have h := c7_adapter_code_mapping (fun _ _ _ => ((-1 : ℤ), true))
    (fun d _ _ _ => ((1 : ℤ), d)) false [] mem0
  exact ⟨h.1.1 (by norm_num), h.2.2.1 (by norm_num)⟩

/-- C8: on every return of `cvNlsLSetup` (whatever the sign of the
delegated routine's status), the setup counter is incremented by one,
the callee's `jcur` flag is stored in `cv_jcur` and propagated through
the `*jcur` output parameter, `cv_gamrat` and `cv_crate` are reset to
`1`, `cv_gammap` snapshots `cv_gamma`, and `cv_nstlp` snapshots
`cv_nst`. -/
theorem c8_lsetup_state_updates
    (lsetup : ConvFailFlag → List ℚ → List ℚ → ℤ × Bool)
    (jbad : Bool) (cv : CVodeMem) :
    (cvNlsLSetup lsetup jbad cv).2.1.cv_nsetups = cv.cv_nsetups + 1 ∧
    (cvNlsLSetup lsetup jbad cv).2.1.cv_jcur =
      (lsetup (if jbad then ConvFailFlag.failBadJ else cv.convfail)
        cv.cv_y cv.cv_ftemp).2 ∧
    (cvNlsLSetup lsetup jbad cv).2.2 =
      (cvNlsLSetup lsetup jbad cv).2.1.cv_jcur ∧
    (cvNlsLSetup lsetup jbad cv).2.1.cv_gamrat = 1 ∧
    (cvNlsLSetup lsetup jbad cv).2.1.cv_crate = 1 ∧
    (cvNlsLSetup lsetup jbad cv).2.1.cv_gammap = cv.cv_gamma ∧
    (cvNlsLSetup lsetup jbad cv).2.1.cv_nstlp = cv.cv_nst := by
  simp only [cvNlsLSetup]
  split_ifs <;> exact ⟨rfl, rfl, rfl, rfl, rfl, rfl, rfl⟩

/-- C10: rejection for a NULL solver handle, or for missing mandatory
operations, happens before any replacement (the stored solver and the
freed list are untouched); rejection for an unknown solver family
happens after the previously installed solver has been freed and the
rejected candidate has been stored as the integrator's solver. -/
theorem c10_rejection_state (cv : RegState) (s : SUNNLS) :
    (CVodeSetNonlinearSolver (some cv) none).1 = NlsRet.CV_ILL_INPUT ∧
    (CVodeSetNonlinearSolver (some cv) none).2 = some cv ∧
    ((s.ops.hasGetType = false ∨ s.ops.hasInit = false ∨
      s.ops.hasSolve = false ∨ s.ops.hasFree = false ∨
      s.ops.hasSetSysFn = false) →
      CVodeSetNonlinearSolver (some cv) (some s) =
        (NlsRet.CV_ILL_INPUT, some cv)) ∧
    (s.ops.hasGetType = true → s.ops.hasInit = true →
     s.ops.hasSolve = true → s.ops.hasFree = true →
     s.ops.hasSetSysFn = true → s.family = NlsFamily.other →
      CVodeSetNonlinearSolver (some cv) (some s) =
        (NlsRet.CV_ILL_INPUT, some { cv with
          NLS := some s
          freedSolvers := cv.freedSolvers ++
            (match cv.NLS with | some old => [old] | none => []) })) := by
  refine ⟨rfl, rfl, ?_, ?_⟩
  · intro hops
    simp only [CVodeSetNonlinearSolver]
    rw [if_pos hops]
  · intro h1 h2 h3 h4 h5 hfam
    simp only [CVodeSetNonlinearSolver, h1, h2, h3, h4, h5, hfam]
    simp

/-- Witness for C10: with a solver already installed, a candidate of
unknown family (all mandatory operations present) is rejected only
after the old solver was freed and the candidate stored. -/
theorem c10_witness :
    CVodeSetNonlinearSolver
      (some { NLS := some { ops := ⟨true, true, true, true, true⟩,
                            family := NlsFamily.rootfind,
                            retSetSysFn := 0, retSetConvTestFn := 0,
                            retSetMaxIters := 0 },
              freedSolvers := [], sysfn := none,
              convTestFnSet := false, maxIters := none })
      (some { ops := ⟨true, true, true, true, true⟩,
              family := NlsFamily.other,
              retSetSysFn := 0, retSetConvTestFn := 0,
              retSetMaxIters := 0 }) =
    (NlsRet.CV_ILL_INPUT,
      some { NLS := some { ops := ⟨true, true, true, true, true⟩,
                           family := NlsFamily.other,
                           retSetSysFn := 0, retSetConvTestFn := 0,
                           retSetMaxIters := 0 },
             freedSolvers := [{ ops := ⟨true, true, true, true, true⟩,
                                family := NlsFamily.rootfind,
                                retSetSysFn := 0, retSetConvTestFn := 0,
                                retSetMaxIters := 0 }],
             sysfn := none, convTestFnSet := false, maxIters := none }) := by
  have h := (c10_rejection_state
    { NLS := some { ops := ⟨true, true, true, true, true⟩,
                    family := NlsFamily.rootfind,
                    retSetSysFn := 0, retSetConvTestFn := 0,
                    retSetMaxIters := 0 },
      freedSolvers := [], sysfn := none,
      convTestFnSet := false, maxIters := none }
    { ops := ⟨true, true, true, true, true⟩,
      family := NlsFamily.other,
      retSetSysFn := 0, retSetConvTestFn := 0,
      retSetMaxIters := 0 }).2.2.2 rfl rfl rfl rfl rfl rfl
  exact h

end CvodeNls
